import Mathlib

set_option autoImplicit false

namespace BrowserDebugger

/-! Shallow embedding of the CDP connection layer (`src/scripts/cdp/connection.py`)
and the collector framework (`src/scripts/cdp/collectors/console.py`,
`src/scripts/cdp/collectors/network.py`) of the claude-browser-debugger repository.

Command/response payloads, event parameters and the raw wire text are kept as
opaque `String`s; incoming wire frames are represented by a tagged variant that
mirrors the `"id" in data` / `"method" in data` classification performed by
`CDPConnection._receive_loop`.  An `asyncio.Future` held in `_pending_commands`
is modelled as an `Option CmdOutcome` slot: `none` is a not-yet-done future,
`some o` a future completed with outcome `o`.  Timeout durations (floats in the
source, used only as opaque values to wait on and to report in errors) are
modelled as `Nat`. -/

/-- Outcome a pending command's result slot is completed with by
`CDPConnection._receive_loop` / `disconnect`: the value or exception set on the
`asyncio.Future` stored in `_pending_commands`. -/
inductive CmdOutcome where
  | success (result : String)
  | commandFailed (message : String) (errorCode : Int)
  | connectionClosed (message : String)
  deriving Repr, DecidableEq

/-- Errors raised by `CDPConnection` methods, after `exceptions.py`:
`ConnectionFailedError`, `ConnectionClosedError`, `CommandFailedError`,
`CDPTimeoutError` (carrying `command_method` and `timeout`), and the
reconnect-exhausted error of `reconnect_with_backoff`. -/
inductive CDPErr where
  | connectionFailed (message : String)
  | connectionClosed (message : String)
  | commandFailed (message : String) (errorCode : Int)
  | timeoutErr (message : String) (commandMethod : String) (timeoutVal : Nat)
  | reconnectFailed (message : String) (attempts : Nat)
  deriving Repr, DecidableEq

/-- The underlying WebSocket object (`self._ws`): an opaque handle plus its own
open/closed state (`self._ws.state.name == "OPEN"` in `is_connected`). -/
structure Transport where
  handle : Nat
  stateOpen : Bool
  deriving Repr, DecidableEq

/-- State of a `CDPConnection` object (`connection.py`, `__init__`):
`ws_url`, default `timeout`, `_ws`, `_next_command_id`, `_pending_commands`
(an id-keyed map of result slots), `_event_handlers` (handlers kept as opaque
identifiers), `_enabled_domains` (a set, kept as a duplicate-free list), and
the `_is_connected` flag. -/
structure CDPConnection where
  ws_url : String
  timeout : Nat
  ws : Option Transport
  nextCommandId : Nat
  pendingCommands : List (Nat × Option CmdOutcome)
  eventHandlers : List (String × List Nat)
  enabledDomains : List String
  isConnectedFlag : Bool
  deriving Repr, DecidableEq

/-- Python `s.startswith(p)`, evaluated on the character list. -/
def pyStartsWith (s p : String) : Bool :=
  List.isPrefixOf p.data s.data

/-- Python `s.endswith(p)`, evaluated on the character list. -/
def pyEndsWith (s p : String) : Bool :=
  List.isSuffixOf p.data s.data

/-- Python `method.split(".")[0]`: the characters before the first `.`
(the whole string when there is no `.`). -/
def domainOf (method : String) : String :=
  String.mk (method.data.takeWhile (fun ch => ch ≠ '.'))

/-- ASCII lowercasing of one character (Python `str.lower` on the ASCII
level names used by the collector). -/
def charToLower (ch : Char) : Char :=
  if 65 ≤ ch.toNat ∧ ch.toNat ≤ 90 then Char.ofNat (ch.toNat + 32) else ch

/-- Python `s.lower()`, evaluated on the character list. -/
def pyToLower (s : String) : String :=
  String.mk (s.data.map charToLower)

/-- `CDPConnection.__init__`: validates the URL scheme (`ws://` / `wss://`,
else `ValueError`), then initialises `_next_command_id = 1`, empty pending
map, empty handler registry, empty enabled-domain set, not connected. -/
def CDPConnection.init (ws_url : String) (timeout : Nat) : Except String CDPConnection :=
  if pyStartsWith ws_url "ws://" ∨ pyStartsWith ws_url "wss://" then
    .ok { ws_url := ws_url
          timeout := timeout
          ws := none
          nextCommandId := 1
          pendingCommands := []
          eventHandlers := []
          enabledDomains := []
          isConnectedFlag := false }
  else
    .error ("Invalid WebSocket URL: " ++ ws_url)

/-- `CDPConnection.is_connected`: false when `_is_connected` is unset or
`_ws` is `None`, otherwise whether the socket state is `OPEN`. -/
def CDPConnection.is_connected (c : CDPConnection) : Bool :=
  c.isConnectedFlag && (c.ws.map Transport.stateOpen).getD false

/-- `CDPConnection.connect`: attempts `websockets.connect(self.ws_url)`, whose
outcome is passed in as `openResult` (`.error e` models the raised exception
`e`).  On success it stores the new socket in `_ws`, sets `_is_connected` and
starts the receive loop; it performs no check that the connection is already
established, so an existing transport is silently overwritten.  On failure it
raises `ConnectionFailedError` naming the URL and the cause. -/
def CDPConnection.connect (c : CDPConnection) (openResult : Except String Transport) :
    Except CDPErr CDPConnection :=
  match openResult with
  | .ok t => .ok { c with ws := some t, isConnectedFlag := true }
  | .error e =>
      .error (.connectionFailed ("Failed to connect to " ++ c.ws_url ++ ": " ++ e))

/-- `CDPConnection.disconnect`: clears `_is_connected`, cancels the receive
loop, closes the socket, completes every not-yet-done pending future with
`ConnectionClosedError("Connection closed during command execution")`, and
clears `_pending_commands`.  The second component lists the `(id, outcome)`
deliveries made to still-waiting callers. -/
def CDPConnection.disconnect (c : CDPConnection) :
    CDPConnection × List (Nat × CmdOutcome) :=
  ( { c with isConnectedFlag := false
             ws := c.ws.map (fun t => { t with stateOpen := false })
             pendingCommands := [] },
    (c.pendingCommands.filter (fun p => p.2 = none)).map
      (fun p => (p.1, CmdOutcome.connectionClosed
                        "Connection closed during command execution")) )

/-- The send phase of `CDPConnection.execute_command` (everything up to the
`await self._ws.send(...)`): raises `ConnectionClosedError` when
`is_connected` is false, otherwise allocates the fresh id
`_next_command_id` (then increments it), registers an empty result slot in
`_pending_commands`, and — when the method ends in `.enable` — adds the
substring before the first `.` to `_enabled_domains`.  The connection state
is returned alongside the result, mirroring `self` surviving a raise. -/
def CDPConnection.executeCommandSend (c : CDPConnection) (method : String) :
    CDPConnection × Except CDPErr Nat :=
  if c.is_connected then
    let cmdId := c.nextCommandId
    let domains :=
      if pyEndsWith method ".enable" then
        let domain := domainOf method
        if domain ∈ c.enabledDomains then c.enabledDomains
        else c.enabledDomains ++ [domain]
      else c.enabledDomains
    ( { c with nextCommandId := c.nextCommandId + 1
               pendingCommands := c.pendingCommands ++ [(cmdId, none)]
               enabledDomains := domains },
      .ok cmdId )
  else
    (c, .error (.connectionClosed "Cannot execute command: connection not active"))

/-- The timeout branch of `CDPConnection.execute_command`: when
`asyncio.wait_for` expires, `CDPTimeoutError("Command timed out")` is raised
carrying `command_method` and the effective timeout
(`timeout if timeout is not None else self.timeout`), and the `finally`
block pops the command's entry from `_pending_commands`. -/
def CDPConnection.onCommandTimeout (c : CDPConnection) (cmdId : Nat)
    (method : String) (timeoutArg : Option Nat) : CDPConnection × CDPErr :=
  ( { c with pendingCommands := c.pendingCommands.filter (fun p => p.1 ≠ cmdId) },
    .timeoutErr "Command timed out" method (timeoutArg.getD c.timeout) )

/-- An incoming wire frame as classified by `_receive_loop`: a frame with an
`id` field is a command response (with optional `error` object carrying code
and message, else a `result` payload), a frame with a `method` field and no
`id` is an event, and anything unparseable is malformed. -/
inductive WireMessage where
  | response (id : Nat) (error : Option (Int × String)) (result : String)
  | event (method : String) (params : String)
  | malformed (raw : String)
  deriving Repr, DecidableEq

/-- Completing the future stored under `id` in `_pending_commands`: only a
present, not-yet-done slot is set (setting a result on an already-done future
raises `InvalidStateError`, which the loop's catch-all swallows leaving state
unchanged; an absent id matches nothing). -/
def resolveSlot (pending : List (Nat × Option CmdOutcome)) (i : Nat)
    (out : CmdOutcome) : List (Nat × Option CmdOutcome) :=
  match pending with
  | [] => []
  | (j, s) :: rest =>
      (if j = i ∧ s = none then (j, some out) else (j, s)) :: resolveSlot rest i out

/-- First-match lookup of a command id's result slot in `_pending_commands`
(dict keys are unique, so first match is the match). -/
def lookupSlot (pending : List (Nat × Option CmdOutcome)) (i : Nat) :
    Option (Option CmdOutcome) :=
  match pending with
  | [] => none
  | (j, s) :: rest => if j = i then some s else lookupSlot rest i

/-- Handler list registered for an event name in `_event_handlers`
(`self._event_handlers.get(event_name, [])`). -/
def lookupHandlers (hs : List (String × List Nat)) (name : String) : List Nat :=
  match hs with
  | [] => []
  | (n, l) :: rest => if n = name then l else lookupHandlers rest name

/-- One iteration of `_receive_loop` on a parsed frame: a response with a
known, unresolved id completes that future (error object → `CommandFailedError`
with its message and code, else success with the `result` payload) and touches
nothing else; an unknown or already-done id is discarded; an event is
dispatched fire-and-forget to every handler registered for its method (the
second component lists the spawned `(handler, params)` tasks); a malformed
frame is logged and skipped. -/
def CDPConnection.processMessage (c : CDPConnection) (m : WireMessage) :
    CDPConnection × List (Nat × String) :=
  match m with
  | .response i err res =>
      let out := match err with
        | some (code, msg) => CmdOutcome.commandFailed msg code
        | none => CmdOutcome.success res
      ({ c with pendingCommands := resolveSlot c.pendingCommands i out }, [])
  | .event method params =>
      (c, (lookupHandlers c.eventHandlers method).map (fun h => (h, params)))
  | .malformed _ => (c, [])

/-- The `except ConnectionClosed` arm of `_receive_loop`: on transport
closure the `_is_connected` flag is cleared and every not-yet-done pending
future is completed with `ConnectionClosedError(f"Connection closed: {e}")`
(the map itself is not cleared on this path). -/
def CDPConnection.onConnectionClosed (c : CDPConnection) (e : String) : CDPConnection :=
  { c with isConnectedFlag := false
           pendingCommands := c.pendingCommands.map (fun p =>
             match p.2 with
             | none => (p.1, some (CmdOutcome.connectionClosed ("Connection closed: " ++ e)))
             | some o => (p.1, some o)) }

/-- Issuing a sequence of `execute_command` send phases in order on one
connection, collecting the ids that were allocated (a call rejected for not
being connected allocates none). -/
def sendMany (c : CDPConnection) (methods : List String) : CDPConnection × List Nat :=
  match methods with
  | [] => (c, [])
  | m :: ms =>
      let s := c.executeCommandSend m
      match s.2 with
      | .ok cmdId =>
          let rest := sendMany s.1 ms
          (rest.1, cmdId :: rest.2)
      | .error _ => sendMany s.1 ms

/-- Feeding a list of success responses `(id, result)` through the receive
loop in wire-arrival order. -/
def deliverResponses (c : CDPConnection) (rs : List (Nat × String)) : CDPConnection :=
  match rs with
  | [] => c
  | r :: rest => deliverResponses (c.processMessage (.response r.1 none r.2)).1 rest

/-- Modelled from the spec: `reconnectWithBackoff(maxAttempts)` is referenced
by the repository's tests (`test_connection.py` asserts the method exists,
`test_connection_live.py` calls it) but its body is absent from the source
tree, so it is modelled from spec section 4.1: repeatedly attempt `connect()`
with backoff up to `maxAttempts`; on the first successful attempt re-issue a
`.enable` command for every domain recorded in `activatedDomains` before the
failure, awaiting each, with replay failures logged but not aborting the
reconnect; exhausting `maxAttempts` raises a reconnect-failure error carrying
the attempt count.  `attemptResult k` is the outcome of the k-th `connect()`
attempt and `replayOk d` whether the replayed enable for domain `d` succeeds;
the returned list records each replayed `.enable` method with its outcome. -/
def CDPConnection.reconnectLoop (c : CDPConnection)
    (attemptResult : Nat → Option Transport) (replayOk : String → Bool)
    (maxAttempts : Nat) (k : Nat) (remaining : Nat) :
    Except CDPErr (CDPConnection × List (String × Bool)) :=
  match remaining with
  | 0 => .error (.reconnectFailed "Failed to reconnect" maxAttempts)
  | r + 1 =>
      match attemptResult k with
      | some t =>
          .ok ( { c with ws := some t, isConnectedFlag := true },
                c.enabledDomains.map (fun d => (d ++ ".enable", replayOk d)) )
      | none => reconnectLoop c attemptResult replayOk maxAttempts (k + 1) r

/-- Modelled from the spec: entry point of the reconnect loop, starting at
attempt 0 with `maxAttempts` attempts remaining (see `reconnectLoop`). -/
def CDPConnection.reconnectWithBackoff (c : CDPConnection) (maxAttempts : Nat)
    (attemptResult : Nat → Option Transport) (replayOk : String → Bool) :
    Except CDPErr (CDPConnection × List (String × Bool)) :=
  c.reconnectLoop attemptResult replayOk maxAttempts 0 maxAttempts

/-! Collector framework.  `collections.deque(maxlen=1000)` drops from the
opposite end when an append overflows the bound, i.e. the oldest entry. -/

/-- `deque.append` with a `maxlen` bound: the new element goes to the back
and, when the bound is exceeded, the oldest (front) elements are dropped. -/
def dequeAppend {α : Type} (cap : Nat) (buf : List α) (x : α) : List α :=
  let b := buf ++ [x]
  if cap < b.length then b.drop (b.length - cap) else b

/-- The `message` object of a `Console.messageAdded` event, with the
`dict.get` defaults of `ConsoleCollector._on_message` already applied
(`level` defaults to `"log"`, numbers to 0, strings to `""`). -/
structure ConsoleMessage where
  level : String
  text : String
  timestamp : Nat
  url : String
  line : Nat
  deriving Repr, DecidableEq

/-- A normalized console record as built by `ConsoleCollector._on_message`. -/
structure ConsoleEntry where
  timestamp : Nat
  level : String
  text : String
  url : String
  line : Nat
  deriving Repr, DecidableEq

/-- The record `ConsoleCollector._on_message` builds from a message. -/
def toEntry (m : ConsoleMessage) : ConsoleEntry :=
  { timestamp := m.timestamp, level := m.level, text := m.text
    url := m.url, line := m.line }

/-- `ConsoleCollector.LOG_LEVELS` with the `.get(x, 0)` default for unknown
levels: verbose/debug 0, log 1, info 2, warn/warning 3, error 4. -/
def logLevels (s : String) : Nat :=
  if s = "verbose" ∨ s = "debug" then 0
  else if s = "log" then 1
  else if s = "info" then 2
  else if s = "warn" ∨ s = "warning" then 3
  else if s = "error" then 4
  else 0

/-- State of a `ConsoleCollector` (`console.py`, `__init__`): the minimum
`level_filter` (a `None`-able string; the empty string is falsy in Python and
disables filtering just like `None`), the `output_path` selecting file mode
(`some`) or stdout streaming (`none`), and the bounded buffer
(`deque(maxlen=1000)`, starts empty). -/
structure ConsoleCollector where
  levelFilter : Option String
  outputPath : Option String
  buffer : List ConsoleEntry
  running : Bool
  deriving Repr, DecidableEq

/-- `ConsoleCollector.__init__`. -/
def ConsoleCollector.init (outputPath : Option String) (levelFilter : Option String) :
    ConsoleCollector :=
  { levelFilter := levelFilter, outputPath := outputPath, buffer := [], running := false }

/-- `ConsoleCollector._should_capture`: capture-all when the filter is falsy,
else compare `LOG_LEVELS` ordinals of the lowercased level and filter. -/
def ConsoleCollector.shouldCapture (c : ConsoleCollector) (level : String) : Bool :=
  match c.levelFilter with
  | none => true
  | some f =>
      if f = "" then true
      else logLevels (pyToLower level) ≥ logLevels (pyToLower f)

/-- `ConsoleCollector._on_message`: drop the message when a (truthy) level
filter is set and `_should_capture` rejects it; otherwise build the entry and
either stream it (stdout mode — the second component lists the lines printed)
or append it to the bounded buffer (file mode). -/
def ConsoleCollector.onMessage (c : ConsoleCollector) (m : ConsoleMessage) :
    ConsoleCollector × List ConsoleEntry :=
  let filterTruthy := match c.levelFilter with
    | none => false
    | some f => f ≠ ""
  if filterTruthy && ! c.shouldCapture m.level then (c, [])
  else
    let entry := toEntry m
    match c.outputPath with
    | none => (c, [entry])
    | some _ => ({ c with buffer := dequeAppend 1000 c.buffer entry }, [])

/-- Feeding a sequence of console messages through `_on_message` in arrival
order, accumulating everything streamed to stdout. -/
def ConsoleCollector.processAll (c : ConsoleCollector) (msgs : List ConsoleMessage) :
    ConsoleCollector × List ConsoleEntry :=
  match msgs with
  | [] => (c, [])
  | m :: ms =>
      let s := c.onMessage m
      let rest := s.1.processAll ms
      (rest.1, s.2 ++ rest.2)

/-- Stored request data in `NetworkCollector._requests` (for matching a
response/failure with its originating request). -/
structure RequestData where
  requestId : String
  url : String
  method : String
  timestamp : Nat
  reqType : String
  deriving Repr, DecidableEq

/-- A normalized network record as built by `NetworkCollector` handlers
(optional fields of the TypedDict kept as `Option`s). -/
structure NetworkEntry where
  requestId : Option String
  url : String
  method : String
  status : Nat
  statusText : String
  timestamp : Nat
  errorText : Option String
  deriving Repr, DecidableEq

/-- State of a `NetworkCollector` (`network.py`, `__init__`): the bounded
buffer, the `output_path` mode switch, and the `_requests` side map from
request id to its opening record. -/
structure NetworkCollector where
  outputPath : Option String
  buffer : List NetworkEntry
  requests : List (String × RequestData)
  deriving Repr, DecidableEq

/-- First-match lookup in the `_requests` side map. -/
def lookupRequest (reqs : List (String × RequestData)) (i : String) :
    Option RequestData :=
  match reqs with
  | [] => none
  | (j, r) :: rest => if j = i then some r else lookupRequest rest i

/-- `NetworkCollector._on_request` (`Network.requestWillBeSent`): store the
opening record under its request id (dict assignment replaces an existing
entry); events without a request id are not tracked. -/
def NetworkCollector.onRequest (c : NetworkCollector) (requestId : Option String)
    (url method : String) (timestamp : Nat) (reqType : String) : NetworkCollector :=
  match requestId with
  | none => c
  | some r =>
      { c with requests :=
          (c.requests.filter (fun p => p.1 ≠ r)) ++
            [(r, { requestId := r, url := url, method := method
                   timestamp := timestamp, reqType := reqType })] }

/-- `NetworkCollector._on_loading_finished` (`Network.loadingFinished`):
pop the completed transaction's entry from the `_requests` side map. -/
def NetworkCollector.onLoadingFinished (c : NetworkCollector)
    (requestId : Option String) : NetworkCollector :=
  match requestId with
  | none => c
  | some r => { c with requests := c.requests.filter (fun p => p.1 ≠ r) }

/-- The default request data used by `_on_loading_failed` when no opening
record is tracked for the id. -/
def defaultRequestData : RequestData :=
  { requestId := "", url := "", method := "GET", timestamp := 0, reqType := "" }

/-- `NetworkCollector._on_loading_failed` (`Network.loadingFailed`): build the
failure record (status 0, statusText FAILED, enriched with url/method from the
side map when present), stream or buffer it, then pop the transaction's entry
from the `_requests` side map.  The second component lists streamed lines. -/
def NetworkCollector.onLoadingFailed (c : NetworkCollector)
    (requestId : Option String) (errorText : String) (timestamp : Nat) :
    NetworkCollector × List NetworkEntry :=
  let reqData := match requestId with
    | none => defaultRequestData
    | some r => (lookupRequest c.requests r).getD defaultRequestData
  let entry : NetworkEntry :=
    { requestId := requestId, url := reqData.url, method := reqData.method
      status := 0, statusText := "FAILED", timestamp := timestamp
      errorText := some errorText }
  let c1 := match c.outputPath with
    | none => c
    | some _ => { c with buffer := dequeAppend 1000 c.buffer entry }
  let streamed := match c.outputPath with
    | none => [entry]
    | some _ => []
  let c2 := match requestId with
    | none => c1
    | some r => { c1 with requests := c1.requests.filter (fun p => p.1 ≠ r) }
  (c2, streamed)

/-! Concrete fixtures used by witness and counterexample theorems. -/

/-- An open WebSocket handle. -/
def sampleTransport : Transport := { handle := 7, stateOpen := true }

/-- A freshly connected `CDPConnection` (the state right after `__init__`
followed by a successful `connect()`). -/
def sampleConnected : CDPConnection :=
  { ws_url := "ws://localhost:9222/devtools/page/ABC123"
    timeout := 30
    ws := some sampleTransport
    nextCommandId := 1
    pendingCommands := []
    eventHandlers := []
    enabledDomains := []
    isConnectedFlag := true }

/-- A `CDPConnection` that never connected (`_ws` is `None`). -/
def sampleDisconnected : CDPConnection :=
  { sampleConnected with ws := none, isConnectedFlag := false }

/-- A second open WebSocket handle, used to exercise transport replacement. -/
def replacementTransport : Transport := { handle := 8, stateOpen := true }

/-- A connected state with three in-flight commands, two of them unresolved. -/
def samplePending : CDPConnection :=
  { sampleConnected with
      nextCommandId := 4
      pendingCommands :=
        [(1, none), (2, some (CmdOutcome.success "done")), (3, none)] }

/-- A connected state whose single pending slot is already resolved. -/
def sampleResolved : CDPConnection :=
  { sampleConnected with
      nextCommandId := 3
      pendingCommands := [(2, some (CmdOutcome.success "early"))] }

/-! Claim theorems. -/

/-- Claim C10: calling `execute_command` on a connection that is not
currently connected raises a connection-closed error before any id is
allocated or anything is sent: the command-id counter, the pending map and
the enabled-domain set — indeed the whole connection state — are unchanged. -/
theorem executeCommand_notConnected_rejects_without_mutation
    (c : CDPConnection) (method : String) (h : c.is_connected = false) :
    (c.executeCommandSend method).2 =
      .error (.connectionClosed "Cannot execute command: connection not active")
    ∧ (c.executeCommandSend method).1.nextCommandId = c.nextCommandId
    ∧ (c.executeCommandSend method).1.pendingCommands = c.pendingCommands
    ∧ (c.executeCommandSend method).1.enabledDomains = c.enabledDomains
    ∧ (c.executeCommandSend method).1 = c := by
  simp [CDPConnection.executeCommandSend, h]

/-- Witness for C10 at a concrete disconnected connection. -/
theorem executeCommand_notConnected_rejects_without_mutation_witness :
    sampleDisconnected.is_connected = false
    ∧ ((sampleDisconnected.executeCommandSend "Runtime.evaluate").2 =
        .error (.connectionClosed "Cannot execute command: connection not active")
      ∧ (sampleDisconnected.executeCommandSend "Runtime.evaluate").1.nextCommandId =
          sampleDisconnected.nextCommandId
      ∧ (sampleDisconnected.executeCommandSend "Runtime.evaluate").1.pendingCommands =
          sampleDisconnected.pendingCommands
      ∧ (sampleDisconnected.executeCommandSend "Runtime.evaluate").1.enabledDomains =
          sampleDisconnected.enabledDomains
      ∧ (sampleDisconnected.executeCommandSend "Runtime.evaluate").1 = sampleDisconnected) :=
  ⟨by decide,
   executeCommand_notConnected_rejects_without_mutation sampleDisconnected
     "Runtime.evaluate" (by decide)⟩

/-- Claim C9 as stated is false at a concrete input: on a connection that is
already Connected, `connect()` does not raise — it returns successfully,
silently replacing the stored transport with the newly opened one. -/
theorem connect_whileConnected_succeeds_counterexample :
    sampleConnected.is_connected = true
    ∧ sampleConnected.connect (.ok replacementTransport) =
        .ok { sampleConnected with ws := some replacementTransport }
    ∧ sampleConnected.ws ≠ some replacementTransport := by
  refine ⟨by decide, rfl, by decide⟩

/-- Claim C9 (amended): calling `connect()` on a Connection that is already
Connected is not an error; the call succeeds and silently replaces the
existing transport with the newly opened one (the old socket and receive
loop are abandoned). -/
theorem connect_whileConnected_replaces_transport
    (c : CDPConnection) (t : Transport) (_h : c.is_connected = true) :
    c.connect (.ok t) = .ok { c with ws := some t, isConnectedFlag := true } := rfl

/-- Witness for the amended C9 at a concrete connected connection. -/
theorem connect_whileConnected_replaces_transport_witness :
    sampleConnected.is_connected = true
    ∧ sampleConnected.connect (.ok replacementTransport) =
        .ok { sampleConnected with
                ws := some replacementTransport, isConnectedFlag := true } :=
  ⟨by decide,
   connect_whileConnected_replaces_transport sampleConnected replacementTransport
     (by decide)⟩

/-- Claim C2 is contradicted by the code: `execute_command("Network.enable")`
adds `"Network"` to `_enabled_domains` at send time (connection.py lines
194-197), before any response arrives, and the domain is still recorded after
the enable command is answered by an error response — a failed enable does
not leave the set unchanged. -/
theorem enableDomain_recorded_at_send_time_code_evaluation :
    (sampleConnected.executeCommandSend "Network.enable").2 = .ok 1
    ∧ (sampleConnected.executeCommandSend "Network.enable").1.enabledDomains = ["Network"]
    ∧ (((sampleConnected.executeCommandSend "Network.enable").1.processMessage
          (.response 1 (some (-32000, "Domain error")) "")).1).enabledDomains = ["Network"]
    ∧ lookupSlot (((sampleConnected.executeCommandSend "Network.enable").1.processMessage
          (.response 1 (some (-32000, "Domain error")) "")).1).pendingCommands 1 =
        some (some (.commandFailed "Domain error" (-32000))) :=
  ⟨rfl, by decide, by decide, by decide⟩

/-- Transactions with key `r` are gone after filtering on `≠ r`. -/
theorem lookupRequest_filter_ne (reqs : List (String × RequestData)) (r : String) :
    lookupRequest (reqs.filter (fun p => p.1 ≠ r)) r = none := by
  induction reqs with
  | nil => rfl
  | cons p rest ih =>
      by_cases h : p.1 = r
      · simpa [List.filter_cons, h] using ih
      · simpa [List.filter_cons, h, lookupRequest] using ih

/-- Claim C8: after a transaction's closing event — `loadingFinished`
(success) or `loadingFailed` (failure) — is processed, its id is no longer
present in the `_requests` side map, and processing a closing event never
grows the side map. -/
theorem sideMap_entry_removed_after_closing_event
    (c : NetworkCollector) (r : String) (errorText : String) (ts : Nat) :
    lookupRequest (c.onLoadingFinished (some r)).requests r = none
    ∧ lookupRequest ((c.onLoadingFailed (some r) errorText ts).1).requests r = none
    ∧ (c.onLoadingFinished (some r)).requests.length ≤ c.requests.length
    ∧ ((c.onLoadingFailed (some r) errorText ts).1).requests.length ≤ c.requests.length := by
  refine ⟨?_, ?_, ?_, ?_⟩
  · simpa [NetworkCollector.onLoadingFinished] using lookupRequest_filter_ne c.requests r
  · cases hp : c.outputPath <;>
      simpa [NetworkCollector.onLoadingFailed, hp] using lookupRequest_filter_ne c.requests r
  · simpa [NetworkCollector.onLoadingFinished] using List.length_filter_le _ c.requests
  · cases hp : c.outputPath <;>
      simpa [NetworkCollector.onLoadingFailed, hp] using List.length_filter_le _ c.requests

/-- Claim C3: whenever the connection terminates — by an explicit
`disconnect()` call or by transport closure hit inside the receive loop —
every command still pending and unresolved at that moment is resolved with a
connection-closed error, no pending command is left unresolved, and the
connection is no longer connected. -/
theorem pending_commands_resolved_on_termination (c : CDPConnection) (e : String) :
    (∀ p ∈ c.pendingCommands, p.2 = none →
        (p.1, CmdOutcome.connectionClosed "Connection closed during command execution")
          ∈ (c.disconnect).2)
    ∧ (c.disconnect).1.pendingCommands = []
    ∧ (c.disconnect).1.is_connected = false
    ∧ (∀ p ∈ c.pendingCommands, p.2 = none →
        (p.1, some (CmdOutcome.connectionClosed ("Connection closed: " ++ e)))
          ∈ (c.onConnectionClosed e).pendingCommands)
    ∧ (∀ p ∈ (c.onConnectionClosed e).pendingCommands, p.2 ≠ none)
    ∧ (c.onConnectionClosed e).is_connected = false := by
  refine ⟨?_, rfl, ?_, ?_, ?_, ?_⟩
  · intro p hp h2
    refine List.mem_map.mpr ⟨p, List.mem_filter.mpr ⟨hp, by simp [h2]⟩, rfl⟩
  · cases hw : c.ws <;>
      simp [CDPConnection.disconnect, CDPConnection.is_connected, hw]
  · intro p hp h2
    refine List.mem_map.mpr ⟨p, hp, ?_⟩
    obtain ⟨a, b⟩ := p
    simp only at h2
    subst h2
    rfl
  · intro p hp
    obtain ⟨q, hq, hqe⟩ := List.mem_map.mp hp
    obtain ⟨a, b⟩ := q
    cases b <;> (subst hqe; simp)
  · cases hw : c.ws <;>
      simp [CDPConnection.onConnectionClosed, CDPConnection.is_connected, hw]

/-- Witness for C3 at a concrete connection with unresolved commands 1 and 3
and an already-resolved command 2. -/
theorem pending_commands_resolved_on_termination_witness :
    ((1, CmdOutcome.connectionClosed "Connection closed during command execution")
        ∈ (samplePending.disconnect).2
      ∧ (3, CmdOutcome.connectionClosed "Connection closed during command execution")
          ∈ (samplePending.disconnect).2)
    ∧ (samplePending.disconnect).1.pendingCommands = []
    ∧ (1, some (CmdOutcome.connectionClosed "Connection closed: socket EOF"))
        ∈ (samplePending.onConnectionClosed "socket EOF").pendingCommands := by
  refine ⟨⟨?_, ?_⟩, ?_, ?_⟩
  · exact (pending_commands_resolved_on_termination samplePending "socket EOF").1
      (1, none) (by decide) rfl
  · exact (pending_commands_resolved_on_termination samplePending "socket EOF").1
      (3, none) (by decide) rfl
  · exact (pending_commands_resolved_on_termination samplePending "socket EOF").2.1
  · exact (pending_commands_resolved_on_termination samplePending "socket EOF").2.2.2.1
      (1, none) (by decide) rfl

/-- Entries with key `k` are gone from the pending map after the `finally`
pop of `execute_command`. -/
theorem lookupSlot_filter_ne (pending : List (Nat × Option CmdOutcome)) (k : Nat) :
    lookupSlot (pending.filter (fun p => p.1 ≠ k)) k = none := by
  induction pending with
  | nil => rfl
  | cons p rest ih =>
      by_cases h : p.1 = k
      · simpa [List.filter_cons, h] using ih
      · simpa [List.filter_cons, h, lookupSlot] using ih

/-- Resolving id `i` is a no-op when every entry under `i` is already done
(or no entry under `i` exists): setting a done future raises
`InvalidStateError`, which the loop's catch-all contains. -/
theorem resolveSlot_noop_of_done (pending : List (Nat × Option CmdOutcome))
    (i : Nat) (out : CmdOutcome)
    (h : ∀ p ∈ pending, p.1 = i → p.2 ≠ none) :
    resolveSlot pending i out = pending := by
  induction pending with
  | nil => rfl
  | cons p rest ih =>
      obtain ⟨a, b⟩ := p
      have hcond : ¬ (a = i ∧ b = none) :=
        fun hc => h (a, b) (List.mem_cons_self _ _) hc.1 hc.2
      show (if a = i ∧ b = none then (a, some out) else (a, b)) :: resolveSlot rest i out
          = (a, b) :: rest
      rw [if_neg hcond]
      congr 1
      exact ih (fun q hq => h q (List.mem_cons_of_mem _ hq))

/-- Claim C4: a command that times out raises a timeout error carrying the
method name and the effective timeout value, its entry is removed from the
pending map, a late response bearing its id is then silently discarded with
no observable effect, and in general any response whose id has no unresolved
pending entry (unknown or duplicate) is a no-op. -/
theorem command_timeout_discards_entry_and_ignores_late_response
    (c : CDPConnection) (cmdId : Nat) (method : String) (timeoutArg : Option Nat)
    (i : Nat) (e : Option (Int × String)) (r : String) :
    (c.onCommandTimeout cmdId method timeoutArg).2 =
        .timeoutErr "Command timed out" method (timeoutArg.getD c.timeout)
    ∧ lookupSlot (c.onCommandTimeout cmdId method timeoutArg).1.pendingCommands cmdId = none
    ∧ (c.onCommandTimeout cmdId method timeoutArg).1.processMessage
        (.response cmdId e r) = ((c.onCommandTimeout cmdId method timeoutArg).1, [])
    ∧ ((∀ p ∈ c.pendingCommands, p.1 = i → p.2 ≠ none) →
        c.processMessage (.response i e r) = (c, [])) := by
  refine ⟨rfl, ?_, ?_, ?_⟩
  · simpa [CDPConnection.onCommandTimeout] using
      lookupSlot_filter_ne c.pendingCommands cmdId
  · have hdone : ∀ p ∈ (c.onCommandTimeout cmdId method timeoutArg).1.pendingCommands,
        p.1 = cmdId → p.2 ≠ none := by
      intro p hp h1
      have := (List.mem_filter.mp hp).2
      simp [h1] at this
    simp only [CDPConnection.processMessage]
    rw [resolveSlot_noop_of_done _ _ _ hdone]
  · intro hdone
    simp only [CDPConnection.processMessage]
    rw [resolveSlot_noop_of_done _ _ _ hdone]

/-- Witness for C4: command 1 of `samplePending` times out with the default
timeout of 30s, its entry is gone, a late response for id 1 changes nothing,
and a duplicate response for the already-resolved id 2 of `sampleResolved`
changes nothing. -/
theorem command_timeout_discards_entry_witness :
    (samplePending.onCommandTimeout 1 "Console.enable" none).2 =
        .timeoutErr "Command timed out" "Console.enable" 30
    ∧ lookupSlot (samplePending.onCommandTimeout 1 "Console.enable" none).1.pendingCommands 1
        = none
    ∧ (samplePending.onCommandTimeout 1 "Console.enable" none).1.processMessage
        (.response 1 none "late") =
        ((samplePending.onCommandTimeout 1 "Console.enable" none).1, [])
    ∧ sampleResolved.processMessage (.response 2 none "late") = (sampleResolved, []) :=
  ⟨(command_timeout_discards_entry_and_ignores_late_response samplePending 1
      "Console.enable" none 1 none "late").1,
   (command_timeout_discards_entry_and_ignores_late_response samplePending 1
      "Console.enable" none 1 none "late").2.1,
   (command_timeout_discards_entry_and_ignores_late_response samplePending 1
      "Console.enable" none 1 none "late").2.2.1,
   (command_timeout_discards_entry_and_ignores_late_response sampleResolved 1
      "Console.enable" none 2 none "late").2.2.2 (by decide)⟩

/-- Folding bounded-deque appends keeps exactly the most recent `cap`
elements, oldest dropped first: the result is the concatenation with all but
the last `cap` elements dropped. -/
theorem foldl_dequeAppend_eq_drop {α : Type} (cap : Nat) (xs : List α) :
    ∀ acc : List α, acc.length ≤ cap →
      xs.foldl (dequeAppend cap) acc =
        (acc ++ xs).drop (acc.length + xs.length - cap) := by
  induction xs with
  | nil =>
      intro acc h
      simp [Nat.sub_eq_zero_of_le h]
  | cons x xs ih =>
      intro acc h
      have hlx : (acc ++ [x]).length = acc.length + 1 := by
        simp
      have hstep : List.foldl (dequeAppend cap) acc (x :: xs) =
          List.foldl (dequeAppend cap) (dequeAppend cap acc x) xs := rfl
      by_cases hb : cap < (acc ++ [x]).length
      · have hacc : acc.length = cap := by omega
        have hda : dequeAppend cap acc x = (acc ++ [x]).drop 1 := by
          simp only [dequeAppend, if_pos hb]
          congr 1
          omega
        have hlen : ((acc ++ [x]).drop 1).length = cap := by
          rw [List.length_drop, hlx]
          omega
        rw [hstep, hda, ih _ (le_of_eq hlen)]
        have hsplit : (acc ++ [x]).drop 1 ++ xs = ((acc ++ [x]) ++ xs).drop 1 :=
          (List.drop_append_of_le_length (by omega)).symm
        rw [hsplit, List.drop_drop, hlen]
        have hidx1 : 1 + (cap + xs.length - cap) =
            acc.length + (x :: xs).length - cap := by
          rw [List.length_cons]
          omega
        rw [hidx1]
        rw [List.append_assoc, List.singleton_append]
      · have hda : dequeAppend cap acc x = acc ++ [x] := by
          simp only [dequeAppend, if_neg hb]
        have hlen : (acc ++ [x]).length ≤ cap := by omega
        rw [hstep, hda, ih _ hlen]
        have hidx : (acc ++ [x]).length + xs.length - cap =
            acc.length + (x :: xs).length - cap := by
          rw [hlx, List.length_cons]
          omega
        rw [hidx]
        rw [List.append_assoc, List.singleton_append]

/-- In persisted (file) mode with no level filter, feeding messages through
`_on_message` appends every normalized entry to the bounded buffer in arrival
order and streams nothing. -/
theorem processAll_persisted_unfiltered (p : String) (msgs : List ConsoleMessage) :
    ∀ c : ConsoleCollector, c.levelFilter = none → c.outputPath = some p →
      (c.processAll msgs).1 =
          { c with buffer := (msgs.map toEntry).foldl (dequeAppend 1000) c.buffer }
      ∧ (c.processAll msgs).2 = [] := by
  induction msgs with
  | nil => intro c hf hp; exact ⟨rfl, rfl⟩
  | cons m ms ih =>
      intro c hf hp
      have hom : c.onMessage m =
          ({ c with buffer := dequeAppend 1000 c.buffer (toEntry m) }, []) := by
        simp [ConsoleCollector.onMessage, hf, hp]
      have hrec := ih { c with buffer := dequeAppend 1000 c.buffer (toEntry m) } hf hp
      simp only [ConsoleCollector.processAll, hom]
      exact ⟨hrec.1, by simpa using hrec.2⟩

/-- Claim C6: the bounded buffer of a persisted Collector never exceeds its
capacity of 1000; at capacity the oldest record is evicted first, so the
buffer always holds exactly the most recent records in arrival order, and
after appending 1500 records it holds exactly records 500 through 1499. -/
theorem collector_buffer_bounded_fifo (path : String) (msgs : List ConsoleMessage)
    (mkRecord : Nat → ConsoleMessage) :
    ((ConsoleCollector.init (some path) none).processAll msgs).1.buffer
        = (msgs.map toEntry).drop (msgs.length - 1000)
    ∧ ((ConsoleCollector.init (some path) none).processAll msgs).1.buffer.length ≤ 1000
    ∧ ((ConsoleCollector.init (some path) none).processAll
          ((List.range 1500).map mkRecord)).1.buffer
        = (((List.range 1500).map mkRecord).map toEntry).drop 500 := by
  have key : ∀ ms : List ConsoleMessage,
      ((ConsoleCollector.init (some path) none).processAll ms).1.buffer
        = (ms.map toEntry).drop (ms.length - 1000) := by
    intro ms
    have h := (processAll_persisted_unfiltered path ms
        (ConsoleCollector.init (some path) none) rfl rfl).1
    rw [h]
    show (ms.map toEntry).foldl (dequeAppend 1000) [] = _
    rw [foldl_dequeAppend_eq_drop 1000 (ms.map toEntry) [] (by simp)]
    simp [List.length_map]
  refine ⟨key msgs, ?_, ?_⟩
  · rw [key msgs]
    simp only [List.length_drop, List.length_map]
    omega
  · rw [key ((List.range 1500).map mkRecord)]
    norm_num

/-- With a truthy level filter `f`, `_should_capture` is exactly the ordinal
comparison of the lowercased levels. -/
theorem shouldCapture_eq_ordinal (c : ConsoleCollector) (f level : String)
    (hf : c.levelFilter = some f) (hne : f ≠ "") :
    c.shouldCapture level =
      decide (logLevels (pyToLower level) ≥ logLevels (pyToLower f)) := by
  simp [ConsoleCollector.shouldCapture, hf, hne]

/-- In streaming (stdout) mode with a truthy level filter, feeding messages
through `_on_message` leaves the collector untouched and emits exactly the
entries of the messages at or above the threshold, in arrival order. -/
theorem processAll_streaming_filtered (f : String) (msgs : List ConsoleMessage) :
    ∀ c : ConsoleCollector, c.levelFilter = some f → f ≠ "" → c.outputPath = none →
      (c.processAll msgs).1 = c
      ∧ (c.processAll msgs).2 =
          (msgs.filter (fun m =>
            decide (logLevels (pyToLower m.level) ≥ logLevels (pyToLower f)))).map toEntry := by
  induction msgs with
  | nil => intro c hf hne hp; exact ⟨rfl, rfl⟩
  | cons m ms ih =>
      intro c hf hne hp
      have hrec := ih c hf hne hp
      by_cases hcap : logLevels (pyToLower m.level) ≥ logLevels (pyToLower f)
      · have hom : c.onMessage m = (c, [toEntry m]) := by
          simp [ConsoleCollector.onMessage, hf, hne, hp,
                shouldCapture_eq_ordinal c f m.level hf hne, hcap]
        simp only [ConsoleCollector.processAll, hom, List.filter_cons]
        rw [if_pos (by simpa using hcap)]
        exact ⟨hrec.1, by simp [hrec.2]⟩
      · have hom : c.onMessage m = (c, []) := by
          simp [ConsoleCollector.onMessage, hf, hne, hp,
                shouldCapture_eq_ordinal c f m.level hf hne, hcap]
        simp only [ConsoleCollector.processAll, hom, List.filter_cons]
        rw [if_neg (by simpa using hcap)]
        exact ⟨hrec.1, by simp [hrec.2]⟩

/-- In persisted (file) mode with a truthy level filter, exactly the entries
at or above the threshold are appended to the bounded buffer, in arrival
order; nothing is streamed and nothing below the threshold is buffered. -/
theorem processAll_persisted_filtered (f p : String) (msgs : List ConsoleMessage) :
    ∀ c : ConsoleCollector, c.levelFilter = some f → f ≠ "" → c.outputPath = some p →
      (c.processAll msgs).1 =
          { c with buffer :=
              ((msgs.filter (fun m =>
                  decide (logLevels (pyToLower m.level) ≥ logLevels (pyToLower f)))).map
                toEntry).foldl (dequeAppend 1000) c.buffer }
      ∧ (c.processAll msgs).2 = [] := by
  induction msgs with
  | nil => intro c hf hne hp; exact ⟨rfl, rfl⟩
  | cons m ms ih =>
      intro c hf hne hp
      by_cases hcap : logLevels (pyToLower m.level) ≥ logLevels (pyToLower f)
      · have hom : c.onMessage m =
            ({ c with buffer := dequeAppend 1000 c.buffer (toEntry m) }, []) := by
          simp [ConsoleCollector.onMessage, hf, hne, hp,
                shouldCapture_eq_ordinal c f m.level hf hne, hcap]
        have hrec := ih { c with buffer := dequeAppend 1000 c.buffer (toEntry m) } hf hne hp
        simp only [ConsoleCollector.processAll, hom, List.filter_cons]
        rw [if_pos (by simpa using hcap)]
        exact ⟨hrec.1, by simpa using hrec.2⟩
      · have hom : c.onMessage m = (c, []) := by
          simp [ConsoleCollector.onMessage, hf, hne, hp,
                shouldCapture_eq_ordinal c f m.level hf hne, hcap]
        have hrec := ih c hf hne hp
        simp only [ConsoleCollector.processAll, hom, List.filter_cons]
        rw [if_neg (by simpa using hcap)]
        exact ⟨hrec.1, by simpa using hrec.2⟩

/-- Claim C7: a message-stream Collector constructed with a minimum-severity
filter keeps exactly the messages whose severity ordinal is at or above the
filter's ordinal, in arrival order — streamed in stdout mode, entering the
bounded buffer in file mode — and messages below the threshold are dropped
before buffering and never appear in any flush. -/
theorem severity_filter_keeps_exactly_at_or_above (f path : String)
    (msgs : List ConsoleMessage) (hne : f ≠ "") :
    ((ConsoleCollector.init none (some f)).processAll msgs).2 =
        (msgs.filter (fun m =>
          decide (logLevels (pyToLower m.level) ≥ logLevels (pyToLower f)))).map toEntry
    ∧ ((ConsoleCollector.init none (some f)).processAll msgs).1 =
        ConsoleCollector.init none (some f)
    ∧ ((ConsoleCollector.init (some path) (some f)).processAll msgs).1.buffer =
        ((msgs.filter (fun m =>
            decide (logLevels (pyToLower m.level) ≥ logLevels (pyToLower f)))).map
          toEntry).drop
          ((msgs.filter (fun m =>
              decide (logLevels (pyToLower m.level) ≥ logLevels (pyToLower f)))).length
            - 1000) := by
  refine ⟨(processAll_streaming_filtered f msgs _ rfl hne rfl).2,
          (processAll_streaming_filtered f msgs _ rfl hne rfl).1, ?_⟩
  have h := (processAll_persisted_filtered f path msgs
      (ConsoleCollector.init (some path) (some f)) rfl hne rfl).1
  rw [h]
  show (_ : List ConsoleEntry).foldl (dequeAppend 1000) [] = _
  rw [foldl_dequeAppend_eq_drop 1000 _ [] (by simp)]
  simp [List.length_map]

/-- A console message fixture with the given level and text. -/
def demoMsg (lvl txt : String) : ConsoleMessage :=
  { level := lvl, text := txt, timestamp := 0, url := "", line := 0 }

/-- The spec's filtering example: severities low, low, mid, high. -/
def demoMsgs : List ConsoleMessage :=
  [demoMsg "log" "a", demoMsg "log" "b", demoMsg "warn" "c", demoMsg "error" "d"]

/-- Witness for C7: threshold "warn" on levels log, log, warn, error keeps
exactly the warn and error entries, in arrival order. -/
theorem severity_filter_keeps_exactly_witness :
    ((ConsoleCollector.init none (some "warn")).processAll demoMsgs).2 =
      [toEntry (demoMsg "warn" "c"), toEntry (demoMsg "error" "d")] :=
  ((severity_filter_keeps_exactly_at_or_above "warn" "out.jsonl" demoMsgs
      (by decide)).1).trans (by decide)

/-- On a connected state, the send phase allocates exactly `_next_command_id`,
increments the counter, and appends a fresh unresolved slot. -/
theorem executeCommandSend_connected_eq (c : CDPConnection) (m : String)
    (h : c.is_connected = true) :
    c.executeCommandSend m =
      ({ c with
           nextCommandId := c.nextCommandId + 1
           pendingCommands := c.pendingCommands ++ [(c.nextCommandId, none)]
           enabledDomains :=
             if pyEndsWith m ".enable" then
               if domainOf m ∈ c.enabledDomains then c.enabledDomains
               else c.enabledDomains ++ [domainOf m]
             else c.enabledDomains },
       .ok c.nextCommandId) := by
  simp [CDPConnection.executeCommandSend, h]

/-- Issuing `methods` on a connected state allocates the consecutive ids
starting at the current counter value and registers one unresolved slot per
command, in order, after the existing entries. -/
theorem sendMany_ids_and_pending (ms : List String) :
    ∀ c : CDPConnection, c.is_connected = true →
      (sendMany c ms).2 = List.range' c.nextCommandId ms.length 1
      ∧ (sendMany c ms).1.pendingCommands =
          c.pendingCommands ++
            (List.range' c.nextCommandId ms.length 1).map (fun i => (i, none)) := by
  induction ms with
  | nil => intro c h; exact ⟨rfl, by simp [sendMany]⟩
  | cons m ms ih =>
      intro c h
      have hev := executeCommandSend_connected_eq c m h
      have hconn : (c.executeCommandSend m).1.is_connected = true := by
        rw [hev]
        simpa [CDPConnection.is_connected] using h
      have hrec := ih (c.executeCommandSend m).1 hconn
      have hnext : (c.executeCommandSend m).1.nextCommandId = c.nextCommandId + 1 := by
        rw [hev]
      have hpend : (c.executeCommandSend m).1.pendingCommands =
          c.pendingCommands ++ [(c.nextCommandId, none)] := by
        rw [hev]
      have hs2 : (c.executeCommandSend m).2 = .ok c.nextCommandId := by
        rw [hev]
      have hunfold : sendMany c (m :: ms) =
          ((sendMany (c.executeCommandSend m).1 ms).1,
            c.nextCommandId :: (sendMany (c.executeCommandSend m).1 ms).2) := by
        show (match (c.executeCommandSend m).2 with
          | .ok cmdId =>
              ((sendMany (c.executeCommandSend m).1 ms).1,
                cmdId :: (sendMany (c.executeCommandSend m).1 ms).2)
          | .error _ => sendMany (c.executeCommandSend m).1 ms) = _
        rw [hs2]
      constructor
      · rw [hunfold]
        show c.nextCommandId :: (sendMany (c.executeCommandSend m).1 ms).2 = _
        rw [hrec.1, hnext]
        rfl
      · rw [hunfold]
        show (sendMany (c.executeCommandSend m).1 ms).1.pendingCommands = _
        rw [hrec.2, hpend, hnext]
        rw [List.append_assoc]
        rfl

/-- Unfolding equation: looking an id up in a non-empty pending map. -/
theorem lookupSlot_cons (a : Nat) (b : Option CmdOutcome)
    (rest : List (Nat × Option CmdOutcome)) (i : Nat) :
    lookupSlot ((a, b) :: rest) i = if a = i then some b else lookupSlot rest i := rfl

/-- Unfolding equation: resolving an id in a non-empty pending map. -/
theorem resolveSlot_cons (a : Nat) (b : Option CmdOutcome)
    (rest : List (Nat × Option CmdOutcome)) (i : Nat) (out : CmdOutcome) :
    resolveSlot ((a, b) :: rest) i out =
      (if a = i ∧ b = none then (a, some out) else (a, b)) :: resolveSlot rest i out := rfl

/-- Resolving id `i` completes the unresolved slot stored under `i`. -/
theorem lookupSlot_resolveSlot_self (pending : List (Nat × Option CmdOutcome))
    (i : Nat) (out : CmdOutcome) (h : lookupSlot pending i = some none) :
    lookupSlot (resolveSlot pending i out) i = some (some out) := by
  induction pending with
  | nil => simp [lookupSlot] at h
  | cons p rest ih =>
      obtain ⟨a, b⟩ := p
      rw [lookupSlot_cons] at h
      by_cases hp : a = i
      · have hval : b = none := by
          rw [if_pos hp] at h
          exact Option.some_injective _ h
        calc lookupSlot (resolveSlot ((a, b) :: rest) i out) i
            = lookupSlot ((a, some out) :: resolveSlot rest i out) i := by
              rw [resolveSlot_cons, if_pos ⟨hp, hval⟩]
          _ = some (some out) := by rw [lookupSlot_cons, if_pos hp]
      · rw [if_neg hp] at h
        calc lookupSlot (resolveSlot ((a, b) :: rest) i out) i
            = lookupSlot ((a, b) :: resolveSlot rest i out) i := by
              rw [resolveSlot_cons, if_neg (fun hc => hp hc.1)]
          _ = lookupSlot (resolveSlot rest i out) i := by
              rw [lookupSlot_cons, if_neg hp]
          _ = some (some out) := ih h

/-- Resolving id `i` leaves every other id's slot untouched. -/
theorem lookupSlot_resolveSlot_ne (pending : List (Nat × Option CmdOutcome))
    (i j : Nat) (out : CmdOutcome) (hne : j ≠ i) :
    lookupSlot (resolveSlot pending i out) j = lookupSlot pending j := by
  induction pending with
  | nil => rfl
  | cons p rest ih =>
      obtain ⟨a, b⟩ := p
      by_cases hc : a = i ∧ b = none
      · have ha : ¬ a = j := fun hj => hne (hj.symm.trans hc.1)
        calc lookupSlot (resolveSlot ((a, b) :: rest) i out) j
            = lookupSlot ((a, some out) :: resolveSlot rest i out) j := by
              rw [resolveSlot_cons, if_pos hc]
          _ = lookupSlot (resolveSlot rest i out) j := by
              rw [lookupSlot_cons, if_neg ha]
          _ = lookupSlot rest j := ih
          _ = lookupSlot ((a, b) :: rest) j := by
              rw [lookupSlot_cons, if_neg ha]
      · calc lookupSlot (resolveSlot ((a, b) :: rest) i out) j
            = lookupSlot ((a, b) :: resolveSlot rest i out) j := by
              rw [resolveSlot_cons, if_neg hc]
          _ = lookupSlot ((a, b) :: rest) j := by
              by_cases ha : a = j
              · rw [lookupSlot_cons, if_pos ha, lookupSlot_cons, if_pos ha]
              · rw [lookupSlot_cons, if_neg ha, lookupSlot_cons, if_neg ha]
                exact ih

/-- Delivering responses whose ids avoid `i` leaves slot `i` untouched. -/
theorem deliverResponses_preserves (rs : List (Nat × String)) :
    ∀ c : CDPConnection, ∀ i : Nat, i ∉ rs.map Prod.fst →
      lookupSlot (deliverResponses c rs).pendingCommands i =
        lookupSlot c.pendingCommands i := by
  induction rs with
  | nil => intro c i _; rfl
  | cons q rest ih =>
      intro c i h
      simp only [List.map_cons, List.mem_cons, not_or] at h
      show lookupSlot (deliverResponses
          (c.processMessage (.response q.1 none q.2)).1 rest).pendingCommands i = _
      rw [ih _ i h.2]
      show lookupSlot (resolveSlot c.pendingCommands q.1 (CmdOutcome.success q.2)) i = _
      exact lookupSlot_resolveSlot_ne _ _ _ _ h.1

/-- Delivering a duplicate-free batch of success responses, in any order,
resolves each id's unresolved slot with the payload of the response bearing
that very id. -/
theorem deliverResponses_resolves (rs : List (Nat × String)) :
    ∀ c : CDPConnection, ∀ i : Nat, ∀ r : String,
      (rs.map Prod.fst).Nodup → (i, r) ∈ rs →
      lookupSlot c.pendingCommands i = some none →
      lookupSlot (deliverResponses c rs).pendingCommands i =
        some (some (CmdOutcome.success r)) := by
  induction rs with
  | nil => intro c i r _ hmem _; cases hmem
  | cons q rest ih =>
      intro c i r hnd hmem hslot
      have hnd' : (q.1 :: rest.map Prod.fst).Nodup := by simpa using hnd
      have hhead : q.1 ∉ rest.map Prod.fst ∧ (rest.map Prod.fst).Nodup :=
        List.nodup_cons.mp hnd'
      rcases List.mem_cons.mp hmem with heq | hmem'
      · subst heq
        show lookupSlot (deliverResponses
            (c.processMessage (.response i none r)).1 rest).pendingCommands i = _
        rw [deliverResponses_preserves rest _ i hhead.1]
        show lookupSlot (resolveSlot c.pendingCommands i (CmdOutcome.success r)) i = _
        exact lookupSlot_resolveSlot_self _ _ _ hslot
      · have hi : i ∈ rest.map Prod.fst := List.mem_map.mpr ⟨(i, r), hmem', rfl⟩
        have hne : i ≠ q.1 := fun he => hhead.1 (he ▸ hi)
        show lookupSlot (deliverResponses
            (c.processMessage (.response q.1 none q.2)).1 rest).pendingCommands i = _
        refine ih _ i r hhead.2 hmem' ?_
        show lookupSlot (resolveSlot c.pendingCommands q.1 (CmdOutcome.success q.2)) i
            = some none
        rw [lookupSlot_resolveSlot_ne _ _ _ _ hne]
        exact hslot

/-- An id found among freshly-registered slots looks up as unresolved. -/
theorem lookupSlot_allNone (ids : List Nat) (i : Nat) (h : i ∈ ids) :
    lookupSlot (ids.map (fun j => (j, (none : Option CmdOutcome)))) i = some none := by
  induction ids with
  | nil => cases h
  | cons j rest ih =>
      by_cases hj : j = i
      · simp [lookupSlot, hj]
      · have h' : i ∈ rest := by
          rcases List.mem_cons.mp h with he | hr
          · exact absurd he.symm hj
          · exact hr
        simpa [lookupSlot, hj] using ih h'

/-- Claim C1: on one freshly-connected Connection, concurrently issued
commands receive the consecutive ids 1, 2, 3, … — pairwise distinct, strictly
increasing, starting at 1, never reused — and when their responses are
delivered in any order (any permutation of the issued ids), each command's
result slot is resolved with exactly the payload of the response bearing its
own id. -/
theorem command_ids_fresh_and_responses_correlated
    (c : CDPConnection) (methods : List String)
    (hconn : c.is_connected = true) (hfresh : c.nextCommandId = 1)
    (hpending : c.pendingCommands = []) :
    (sendMany c methods).2 = List.range' 1 methods.length 1
    ∧ ((sendMany c methods).2).Pairwise (· < ·)
    ∧ ∀ rs : List (Nat × String),
        (rs.map Prod.fst).Perm (sendMany c methods).2 →
        ∀ i r, (i, r) ∈ rs →
          lookupSlot (deliverResponses (sendMany c methods).1 rs).pendingCommands i =
            some (some (CmdOutcome.success r)) := by
  have hsm := sendMany_ids_and_pending methods c hconn
  have hids : (sendMany c methods).2 = List.range' 1 methods.length 1 := by
    rw [hsm.1, hfresh]
  refine ⟨hids, ?_, ?_⟩
  · rw [hids]
    exact List.pairwise_lt_range' 1 methods.length
  · intro rs hperm i r hmem
    have hndids : ((sendMany c methods).2).Nodup := by
      rw [hids]
      exact (List.pairwise_lt_range' 1 methods.length).imp Nat.ne_of_lt
    have hkeysnd : (rs.map Prod.fst).Nodup := hperm.nodup_iff.mpr hndids
    have hik : i ∈ (sendMany c methods).2 :=
      hperm.mem_iff.mp (List.mem_map.mpr ⟨(i, r), hmem, rfl⟩)
    have hslot : lookupSlot (sendMany c methods).1.pendingCommands i = some none := by
      rw [hsm.2, hpending, List.nil_append]
      apply lookupSlot_allNone
      rw [hsm.1] at hik
      exact hik
    exact deliverResponses_resolves rs _ i r hkeysnd hmem hslot

/-- Witness for C1: two commands on a fresh connection get ids 1 and 2;
delivering the responses in reverse order still resolves command 1 with
payload "one" and command 2 with payload "two". -/
theorem command_ids_fresh_and_responses_correlated_witness :
    (sendMany sampleConnected ["Page.enable", "Runtime.evaluate"]).2 = [1, 2]
    ∧ lookupSlot (deliverResponses
        (sendMany sampleConnected ["Page.enable", "Runtime.evaluate"]).1
        [(2, "two"), (1, "one")]).pendingCommands 1 =
        some (some (CmdOutcome.success "one"))
    ∧ lookupSlot (deliverResponses
        (sendMany sampleConnected ["Page.enable", "Runtime.evaluate"]).1
        [(2, "two"), (1, "one")]).pendingCommands 2 =
        some (some (CmdOutcome.success "two")) := by
  have h := command_ids_fresh_and_responses_correlated sampleConnected
      ["Page.enable", "Runtime.evaluate"] (by decide) rfl rfl
  have hperm : (([(2, "two"), (1, "one")] : List (Nat × String)).map Prod.fst).Perm
      (sendMany sampleConnected ["Page.enable", "Runtime.evaluate"]).2 := by
    rw [h.1]; decide
  exact ⟨h.1.trans (by decide),
         h.2.2 [(2, "two"), (1, "one")] hperm 1 "one" (by decide),
         h.2.2 [(2, "two"), (1, "one")] hperm 2 "two" (by decide)⟩

/-- Exhausting all remaining attempts with no successful `connect()` raises
the reconnect-failure error carrying the attempt count. -/
theorem reconnectLoop_exhausts (c : CDPConnection)
    (attemptResult : Nat → Option Transport) (replayOk : String → Bool)
    (maxAttempts : Nat) :
    ∀ remaining k, (∀ j, k ≤ j → j < k + remaining → attemptResult j = none) →
      c.reconnectLoop attemptResult replayOk maxAttempts k remaining =
        .error (.reconnectFailed "Failed to reconnect" maxAttempts) := by
  intro remaining
  induction remaining with
  | zero => intro k _; rfl
  | succ r ih =>
      intro k h
      have h0 : attemptResult k = none := h k le_rfl (by omega)
      simp only [CDPConnection.reconnectLoop, h0]
      exact ih (k + 1) (fun j hj1 hj2 => h j (by omega) (by omega))

/-- The loop stops at the first successful attempt, reconnects on its
transport and replays an `.enable` for every recorded domain. -/
theorem reconnectLoop_first_success (c : CDPConnection)
    (attemptResult : Nat → Option Transport) (replayOk : String → Bool)
    (maxAttempts : Nat) (t : Transport) :
    ∀ remaining k k0, k ≤ k0 → k0 < k + remaining →
      attemptResult k0 = some t →
      (∀ j, k ≤ j → j < k0 → attemptResult j = none) →
      c.reconnectLoop attemptResult replayOk maxAttempts k remaining =
        .ok ( { c with ws := some t, isConnectedFlag := true },
              c.enabledDomains.map (fun d => (d ++ ".enable", replayOk d)) ) := by
  intro remaining
  induction remaining with
  | zero => intro k k0 h1 h2 _ _; omega
  | succ r ih =>
      intro k k0 h1 h2 h3 h4
      by_cases hk : k = k0
      · subst hk
        simp only [CDPConnection.reconnectLoop, h3]
      · have hA : attemptResult k = none := h4 k le_rfl (by omega)
        simp only [CDPConnection.reconnectLoop, hA]
        exact ih (k + 1) k0 (by omega) (by omega) h3
          (fun j hj1 hj2 => h4 j (by omega) hj2)

/-- Claim C5 (modelled from the spec, `reconnect_with_backoff` being absent
from the source tree): on the first successful reconnect attempt the
connection is re-established on the new transport and a `.enable` command is
re-issued for every domain recorded as activated before the failure — replay
failures do not abort the reconnect, whose result is independent of
`replayOk` — and when all `maxAttempts` attempts fail, a reconnect-failure
error carrying the attempt count is raised. -/
theorem reconnect_replays_all_domains_or_raises
    (c : CDPConnection) (maxAttempts : Nat)
    (attemptResult : Nat → Option Transport) (replayOk : String → Bool) :
    ((∀ k, k < maxAttempts → attemptResult k = none) →
        c.reconnectWithBackoff maxAttempts attemptResult replayOk =
          .error (.reconnectFailed "Failed to reconnect" maxAttempts))
    ∧ (∀ k0 t, k0 < maxAttempts → attemptResult k0 = some t →
        (∀ j, j < k0 → attemptResult j = none) →
        c.reconnectWithBackoff maxAttempts attemptResult replayOk =
          .ok ( { c with ws := some t, isConnectedFlag := true },
                c.enabledDomains.map (fun d => (d ++ ".enable", replayOk d)) )) := by
  constructor
  · intro h
    exact reconnectLoop_exhausts c attemptResult replayOk maxAttempts maxAttempts 0
      (fun j _ hj2 => h j (by omega))
  · intro k0 t hlt hsome hbefore
    exact reconnectLoop_first_success c attemptResult replayOk maxAttempts t
      maxAttempts 0 k0 (Nat.zero_le _) (by omega) hsome
      (fun j _ hj2 => hbefore j hj2)

/-- A disconnected connection that had activated the Console and Network
domains before the failure. -/
def reconnectDemo : CDPConnection :=
  { sampleDisconnected with enabledDomains := ["Console", "Network"] }

/-- Witness for C5: two always-failing attempts raise the reconnect-failure
error carrying 2; with success on attempt 1 of 3, both recorded domains are
replayed even though the Network replay fails. -/
theorem reconnect_replays_all_domains_or_raises_witness :
    reconnectDemo.reconnectWithBackoff 2 (fun _ => none) (fun _ => true) =
      .error (.reconnectFailed "Failed to reconnect" 2)
    ∧ reconnectDemo.reconnectWithBackoff 3
        (fun k => if k = 1 then some replacementTransport else none)
        (fun d => decide (d = "Console")) =
      .ok ( { reconnectDemo with
                ws := some replacementTransport, isConnectedFlag := true },
            [("Console.enable", true), ("Network.enable", false)] ) :=
  ⟨(reconnect_replays_all_domains_or_raises reconnectDemo 2 (fun _ => none)
      (fun _ => true)).1 (fun _ _ => rfl),
   (reconnect_replays_all_domains_or_raises reconnectDemo 3
      (fun k => if k = 1 then some replacementTransport else none)
      (fun d => decide (d = "Console"))).2 1 replacementTransport (by omega) rfl
      (fun j hj => by
        have hj0 : j = 0 := Nat.lt_one_iff.mp hj
        subst hj0
        rfl)⟩

end BrowserDebugger
